import Mathlib

/-!
Verification development for the RoundupSummary repository.

The repository contains two near-identical scripts, `run.py` and
`.github/actions/roundup_summary.py`, which fetch the full paginated issue
list of a GitHub repository, classify the issues by state and by creation
date, and render an HTML summary.  This file gives a shallow embedding of
the issue data model and of the pure core of both scripts, and proves (or
refutes) the frozen claims about them.
-/

namespace RoundupSummary

/-- Embeds the `User` TypedDict of `run.py` / `roundup_summary.py`
(fields used by the scripts; `id` is declared as `str` in the source). -/
structure User where
  id : String
  site_admin : Bool
  login : String
  type : String
deriving DecidableEq

/-- Embeds the `Label` TypedDict of the source. -/
structure IssueLabel where
  id : Nat
  url : String
  name : String
deriving DecidableEq

/-- Embeds the `Issue` TypedDict of the source: the fields of a GitHub
issue that the scripts consume.  Python `int` fields that the API returns
as non-negative counts are modelled as `Nat`. -/
structure Issue where
  url : String
  id : Nat
  number : Nat
  title : String
  user : User
  labels : List IssueLabel
  state : String
  locked : Bool
  assignee : Option String
  assignees : List (Option String)
  milestone : Option String
  comments : Nat
  created_at : String
  updated_at : String
  closed_at : Option String
  body : String
deriving DecidableEq

/-! ## Dates and `datetime.strptime` with format `%Y-%m-%dT%H:%M:%SZ`

`opened_between` in both scripts parses `issue["created_at"]` with
`datetime.strptime(_, "%Y-%m-%dT%H:%M:%SZ")` and compares the resulting
`.date()` values.  CPython's `_strptime` compiles this format to the
regular expression

  `(?P<Y>\d\d\d\d)-(?P<m>1[0-2]|0[1-9]|[1-9])-(?P<d>3[0-1]|[1-2]\d|0[1-9]|[1-9]| [1-9])T(?P<H>2[0-3]|[0-1]\d|\d):(?P<M>[0-5]\d|\d):(?P<S>6[0-1]|[0-5]\d|\d)Z`

with `re.IGNORECASE`, anchors it at the start, requires the whole input
to be consumed, converts each group with `int`, and feeds the values to
the `datetime` constructor, which raises `ValueError` for year 0,
a day too large for the month, or second 60/61.  We embed that exactly:
`\d` (and `int`) accept any Unicode decimal digit (category `Nd`), the
explicit character classes are ASCII-only, `IGNORECASE` makes the
literals `T` and `Z` also match `t` and `z` (and nothing else), and
since every numeric group is followed by a non-digit literal, the first
alternative whose characters match is the one the regex commits to
(a two-character alternative that matches can never be rescued by a
one-character fallback, because the character after it would have to be
both a digit and a literal), so a deterministic recursive parser is
faithful. -/

/-- Start code points of the Unicode decimal-digit (`Nd`) blocks: each
block is ten consecutive code points with digit values 0..9 (Unicode
14.0, as shipped with CPython 3.11's `unicodedata`). -/
def ndBlockStarts : List Nat :=
  [48, 1632, 1776, 1984, 2406, 2534, 2662, 2790, 2918, 3046, 3174, 3302,
   3430, 3558, 3664, 3792, 3872, 4160, 4240, 6112, 6160, 6470, 6608, 6784,
   6800, 6992, 7088, 7232, 7248, 42528, 43216, 43264, 43472, 43504, 43600,
   44016, 65296, 66720, 68912, 69734, 69872, 69942, 70096, 70384, 70736,
   70864, 71248, 71360, 71472, 71904, 72016, 72784, 73040, 73120, 92768,
   92864, 93008, 120782, 120792, 120802, 120812, 120822, 123200, 123632,
   125264, 130032]

/-- Digit value of code point `cp` if it lies in one of the `Nd` blocks. -/
def ndDigitVal (cp : Nat) : List Nat → Option Nat
  | [] => none
  | s :: rest => if s ≤ cp && cp < s + 10 then some (cp - s) else ndDigitVal cp rest

/-- The value a `\d`-matched character contributes under `int`: any
Unicode decimal digit. -/
def uDigitVal (c : Char) : Option Nat :=
  ndDigitVal c.toNat ndBlockStarts

/-- Value of an ASCII digit character. -/
def asciiDigitVal (c : Char) : Nat :=
  c.toNat - 48

/-- Membership in the ASCII class `[1-9]`. -/
def isAscii19 (c : Char) : Bool :=
  '1' ≤ c && c ≤ '9'

/-- Require the next character to be exactly `c` (the literals `-` and
`:`, which `IGNORECASE` does not affect). -/
def expectChar (c : Char) : List Char → Option (List Char)
  | [] => none
  | x :: rest => if x = c then some rest else none

/-- Require the next character to be `a` or `b` (the literals `T` and
`Z` under `IGNORECASE`, which also match `t` and `z`). -/
def expectEither (a b : Char) : List Char → Option (List Char)
  | [] => none
  | x :: rest => if x = a || x = b then some rest else none

/-- Reader for `%Y`, compiled to `\d\d\d\d`: exactly four Unicode decimal digits. -/
def readYear4 : List Char → Option (Nat × List Char)
  | c1 :: c2 :: c3 :: c4 :: rest =>
    match uDigitVal c1, uDigitVal c2, uDigitVal c3, uDigitVal c4 with
    | some v1, some v2, some v3, some v4 =>
      some (v1 * 1000 + v2 * 100 + v3 * 10 + v4, rest)
    | _, _, _, _ => none
  | _ => none

/-- Reader for `%m`, compiled to `1[0-2]|0[1-9]|[1-9]` (all-ASCII classes). -/
def readMonth : List Char → Option (Nat × List Char)
  | c1 :: c2 :: rest =>
    if c1 = '1' && '0' ≤ c2 && c2 ≤ '2' then some (10 + asciiDigitVal c2, rest)
    else if c1 = '0' && isAscii19 c2 then some (asciiDigitVal c2, rest)
    else if isAscii19 c1 then some (asciiDigitVal c1, c2 :: rest)
    else none
  | [c1] => if isAscii19 c1 then some (asciiDigitVal c1, []) else none
  | [] => none

/-- Reader for `%d`, compiled to `3[0-1]|[1-2]\d|0[1-9]|[1-9]| [1-9]`: the second
character of `[1-2]\d` is any Unicode digit, and a space followed by an
ASCII digit is accepted (with `int(" 5") = 5`). -/
def readDay : List Char → Option (Nat × List Char)
  | c1 :: c2 :: rest =>
    if c1 = '3' && ('0' ≤ c2 && c2 ≤ '1') then some (30 + asciiDigitVal c2, rest)
    else
      match (if c1 = '1' || c1 = '2' then uDigitVal c2 else none) with
      | some v2 => some (asciiDigitVal c1 * 10 + v2, rest)
      | none =>
        if c1 = '0' && isAscii19 c2 then some (asciiDigitVal c2, rest)
        else if isAscii19 c1 then some (asciiDigitVal c1, c2 :: rest)
        else if c1.toNat = 32 && isAscii19 c2 then some (asciiDigitVal c2, rest)
        else none
  | [c1] => if isAscii19 c1 then some (asciiDigitVal c1, []) else none
  | [] => none

/-- Reader for `%H`, compiled to `2[0-3]|[0-1]\d|\d`. -/
def readHour : List Char → Option (Nat × List Char)
  | c1 :: c2 :: rest =>
    if c1 = '2' && ('0' ≤ c2 && c2 ≤ '3') then some (20 + asciiDigitVal c2, rest)
    else
      match (if c1 = '0' || c1 = '1' then uDigitVal c2 else none) with
      | some v2 => some (asciiDigitVal c1 * 10 + v2, rest)
      | none =>
        match uDigitVal c1 with
        | some v1 => some (v1, c2 :: rest)
        | none => none
  | [c1] =>
    match uDigitVal c1 with
    | some v1 => some (v1, [])
    | none => none
  | [] => none

/-- Reader for `%M`, compiled to `[0-5]\d|\d`. -/
def readMinute : List Char → Option (Nat × List Char)
  | c1 :: c2 :: rest =>
    match (if '0' ≤ c1 && c1 ≤ '5' then uDigitVal c2 else none) with
    | some v2 => some (asciiDigitVal c1 * 10 + v2, rest)
    | none =>
      match uDigitVal c1 with
      | some v1 => some (v1, c2 :: rest)
      | none => none
  | [c1] =>
    match uDigitVal c1 with
    | some v1 => some (v1, [])
    | none => none
  | [] => none

/-- Reader for `%S`, compiled to `6[0-1]|[0-5]\d|\d`: the regex admits the leap
seconds 60 and 61, which the `datetime` constructor then rejects. -/
def readSecond : List Char → Option (Nat × List Char)
  | c1 :: c2 :: rest =>
    if c1 = '6' && ('0' ≤ c2 && c2 ≤ '1') then some (60 + asciiDigitVal c2, rest)
    else
      match (if '0' ≤ c1 && c1 ≤ '5' then uDigitVal c2 else none) with
      | some v2 => some (asciiDigitVal c1 * 10 + v2, rest)
      | none =>
        match uDigitVal c1 with
        | some v1 => some (v1, c2 :: rest)
        | none => none
  | [c1] =>
    match uDigitVal c1 with
    | some v1 => some (v1, [])
    | none => none
  | [] => none

/-- A calendar date, the result of `datetime.date()`. -/
structure PyDate where
  year : Nat
  month : Nat
  day : Nat
deriving DecidableEq

/-- Python `date` comparison `a < b`: lexicographic on (year, month, day). -/
def dateLt (a b : PyDate) : Bool :=
  if a.year ≠ b.year then a.year < b.year
  else if a.month ≠ b.month then a.month < b.month
  else a.day < b.day

/-- A datetime value as produced by `datetime.strptime`. -/
structure PyDatetime where
  year : Nat
  month : Nat
  day : Nat
  hour : Nat
  minute : Nat
  second : Nat
deriving DecidableEq

/-- `datetime.date()`: drop the time-of-day fields. -/
def PyDatetime.toDate (dt : PyDatetime) : PyDate :=
  PyDate.mk dt.year dt.month dt.day

/-- Gregorian leap-year test, as in Python's `calendar.isleap`. -/
def isLeap (y : Nat) : Bool :=
  y % 4 = 0 && (y % 100 ≠ 0 || y % 400 = 0)

/-- Number of days in a month, as validated by the `datetime` constructor. -/
def daysInMonth (y m : Nat) : Nat :=
  if m = 2 then (if isLeap y then 29 else 28)
  else if m = 4 || m = 6 || m = 9 || m = 11 then 30
  else 31

/-- Embeds `datetime.strptime(s, "%Y-%m-%dT%H:%M:%SZ")`: returns the
parsed datetime, or `none` where Python raises `ValueError` (regex
mismatch, unconverted trailing data, or a value the `datetime`
constructor rejects).  After the regex-level readers above, the only
constructor-level checks that can still fail are year 0, a day too large
for the month, and the leap seconds 60/61; every other field is already
range-correct by construction. -/
def strptimeZ (s : String) : Option PyDatetime :=
  match readYear4 s.data with
  | none => none
  | some (y, cs) =>
  match expectChar '-' cs with
  | none => none
  | some cs =>
  match readMonth cs with
  | none => none
  | some (mo, cs) =>
  match expectChar '-' cs with
  | none => none
  | some cs =>
  match readDay cs with
  | none => none
  | some (d, cs) =>
  match expectEither 'T' 't' cs with
  | none => none
  | some cs =>
  match readHour cs with
  | none => none
  | some (h, cs) =>
  match expectChar ':' cs with
  | none => none
  | some cs =>
  match readMinute cs with
  | none => none
  | some (mi, cs) =>
  match expectChar ':' cs with
  | none => none
  | some cs =>
  match readSecond cs with
  | none => none
  | some (sec, cs) =>
  match expectEither 'Z' 'z' cs with
  | none => none
  | some cs =>
    if cs = [] && 1 ≤ y && d ≤ daysInMonth y mo && sec ≤ 59 then
      some (PyDatetime.mk y mo d h mi sec)
    else none

/-! ## Issue classifier (`is_open`, `opened_between`) -/

/-- Embeds `is_open` (both scripts): `issue["state"] == "open"`. -/
def is_open (issue : Issue) : Bool :=
  issue.state == "open"

/-- Embeds `opened_between` (both scripts):
`stop > strptime(issue["created_at"], fmt).date() > start`, where a parse
failure propagates as a `ValueError` (modelled as `Except.error`). -/
def opened_between (issue : Issue) (start stop : PyDate) : Except Unit Bool :=
  match strptimeZ issue.created_at with
  | none => Except.error ()
  | some dt => Except.ok (dateLt dt.toDate stop && dateLt start dt.toDate)

/-- Embeds `date_range` (both scripts): the hard-coded test window. -/
def date_range : PyDate × PyDate :=
  (PyDate.mk 2022 2 14, PyDate.mk 2022 2 20)

/-! ## Partition by state (`__main__` of both scripts)

`open_issues = list(filter(is_open, issues))` and
`closed_issues = list(filter(lambda x: not is_open(x), issues))`. -/

/-- Embeds `open_issues = list(filter(is_open, issues))`. -/
def open_partition (issues : List Issue) : List Issue :=
  issues.filter (fun i => is_open i)

/-- Embeds `closed_issues = list(filter(lambda x: not is_open(x), issues))`. -/
def closed_partition (issues : List Issue) : List Issue :=
  issues.filter (fun i => !(is_open i))

/-! ## Ranker (`most_discussed`)

Python's `sorted` is a stable ascending sort; `List.insertionSort` with a
non-strict key comparison is stable ascending, so it embeds
`sorted(_, key=lambda issue: issue["comments"])`. -/

/-- Embeds `most_discussed` (both scripts):
`sorted(filter(lambda issue: issue["state"] == "open", issues), key=lambda issue: issue["comments"])[:top]`. -/
def most_discussed (issues : List Issue) (top : Nat) : List Issue :=
  (List.insertionSort (fun a b => a.comments ≤ b.comments)
    (issues.filter (fun issue => issue.state == "open"))).take top

/-! ## Renderer (`create_issue_table`) -/

/-- Embeds the `url=` argument of the row template:
`"https://github.com/python/issues-test-demo-20220218/issues/{}".format(issue["number"])`. -/
def issueUrl (issue : Issue) : String :=
  "https://github.com/python/issues-test-demo-20220218/issues/" ++ toString issue.number

/-- Embeds the `username` computed inside the loop of `create_issue_table`:
the fixed placeholder for `Mannequin`-typed authors, the real login
otherwise. -/
def issueOpener (issue : Issue) : String :=
  if issue.user.type = "Mannequin" then "Mannequin" else issue.user.login

/-- Embeds one instantiation of the row template
`<p>#{id}: {title}<br><a href="{url}">{url}</a> opened by {opener}</p>`
(where the script passes `issue["number"]` for the `id` placeholder). -/
def renderRow (issue : Issue) : String :=
  "<p>#" ++ toString issue.number ++ ": " ++ issue.title ++ "<br><a href=\"" ++
    issueUrl issue ++ "\">" ++ issueUrl issue ++ "</a> opened by " ++
    issueOpener issue ++ "</p>"

/-- The list of rendered rows of `create_issue_table`: `limit` defaults to
`len(issues)` when `None`, and the loop runs over `issues[:limit]`. -/
def issueTableRows (issues : List Issue) (limit : Option Nat) : List String :=
  (issues.take (limit.getD issues.length)).map renderRow

/-- Embeds `create_issue_table` (both scripts): the rendered rows joined
with a newline. -/
def create_issue_table (issues : List Issue) (limit : Option Nat) : String :=
  String.intercalate "\n" (issueTableRows issues limit)

/-- Replace the author's `login` field of an issue, keeping every other
field: used to state that a rendered row ignores the login of a
`Mannequin`-typed author. -/
def withLogin (i : Issue) (l : String) : Issue :=
  Issue.mk i.url i.id i.number i.title
    (User.mk i.user.id i.user.site_admin l i.user.type)
    i.labels i.state i.locked i.assignee i.assignees i.milestone
    i.comments i.created_at i.updated_at i.closed_at i.body

/-! ## Paginator (`get_issues` of both scripts)

The transport is modelled as a script of responses indexed by the global
request count (a mock Transport): each request either returns a parsed
page or fails (non-200 status / connection error).  The `while True`
loops are embedded with explicit fuel; `outOfFuel` never occurs on the
concrete and hypothetical sources used below. -/

/-- One transport response: a parsed JSON page, or a failure. -/
inductive TResp where
  | ok (data : List Issue)
  | err
deriving DecidableEq

/-- Outcome of a paginated fetch, together with the number of transport
requests performed. -/
inductive FetchOutcome where
  | success (issues : List Issue) (requests : Nat)
  | exhausted (requests : Nat)
  | transportError (requests : Nat)
  | outOfFuel
deriving DecidableEq

/-- Number of requests reported by a fetch outcome. -/
def FetchOutcome.requestCount : FetchOutcome → Option Nat
  | success _ r => some r
  | exhausted r => some r
  | transportError r => some r
  | outOfFuel => none

/-- Embeds the `for _ in range(max_retries)` retry loop of
`run.py::get_issues`: issue requests until one returns status 200, for at
most `retries` attempts; `reqIdx` is the global request counter.  Returns
the page and the new request count, or `none` (the `for...else` branch,
which raises `ValueError`) with the final request count. -/
def attemptPage (t : Nat → TResp) (reqIdx : Nat) : Nat → Option (List Issue) × Nat
  | 0 => (none, reqIdx)
  | retries + 1 =>
    match t reqIdx with
    | TResp.ok data => (some data, reqIdx + 1)
    | TResp.err => attemptPage t (reqIdx + 1) retries

/-- Embeds the `while True` loop of `run.py::get_issues`: fetch the next
page with retries; on retry exhaustion raise (`exhausted`); stop with the
accumulated issues when the page is empty (`if not data: break`),
otherwise append the page (`response.extend(data)`) and continue. -/
def run_get_issues_go (t : Nat → TResp) (maxRetries reqIdx : Nat)
    (acc : List Issue) : Nat → FetchOutcome
  | 0 => FetchOutcome.outOfFuel
  | fuel + 1 =>
    match attemptPage t reqIdx maxRetries with
    | (none, r) => FetchOutcome.exhausted r
    | (some data, r) =>
      if data.isEmpty then FetchOutcome.success acc r
      else run_get_issues_go t maxRetries r (acc ++ data) fuel

/-- Embeds `run.py::get_issues(max_retries)` driven by mock transport `t`. -/
def run_get_issues (t : Nat → TResp) (maxRetries fuel : Nat) : FetchOutcome :=
  run_get_issues_go t maxRetries 0 [] fuel

/-- Embeds the `while True` loop of `roundup_summary.py::get_issues`: one
request per page through `get` (which raises `IOError` on a non-200
response, with no retry), `responses.extend(data)`, and
`if len(data) < 100: return responses`. -/
def rs_get_issues_go (t : Nat → TResp) (reqIdx : Nat)
    (acc : List Issue) : Nat → FetchOutcome
  | 0 => FetchOutcome.outOfFuel
  | fuel + 1 =>
    match t reqIdx with
    | TResp.err => FetchOutcome.transportError (reqIdx + 1)
    | TResp.ok data =>
      if data.length < 100 then FetchOutcome.success (acc ++ data) (reqIdx + 1)
      else rs_get_issues_go t (reqIdx + 1) (acc ++ data) fuel

/-- Embeds `roundup_summary.py::get_issues(auth)` driven by mock transport `t`. -/
def rs_get_issues (t : Nat → TResp) (fuel : Nat) : FetchOutcome :=
  rs_get_issues_go t 0 [] fuel

/-! ## Credential handling (`__main__` of `roundup_summary.py`)

Lines 157-168: `auth` is built from `os.environ.get("USERNAME")` and
`os.environ.get("TOKEN")` with `"{}:{}".format(...)` and base64-encoded,
then `get_issues(auth)` is called.  There is no check that either
variable is present: `os.environ.get` returns `None` for a missing key
and `format` renders it as the string `None`. -/

/-- Embeds `os.environ.get(key)` over an explicit environment. -/
def envGet (env : List (String × String)) (key : String) : Option String :=
  match env with
  | [] => none
  | (k, v) :: rest => if k = key then some v else envGet rest key

/-- Embeds Python's `"{}".format(x)` on `Optional[str]`: `None` renders
as the string `None`. -/
def pyFormatOptStr : Option String → String
  | none => "None"
  | some s => s

/-- Embeds `"{}:{}".format(os.environ.get("USERNAME"), os.environ.get("TOKEN"))`. -/
def auth_bytes (env : List (String × String)) : String :=
  pyFormatOptStr (envGet env "USERNAME") ++ ":" ++ pyFormatOptStr (envGet env "TOKEN")

/-- The base64 alphabet. -/
def b64Alphabet : List Char :=
  ("ABCDEFGHIJKLMNOPQRSTUVWXYZabcdefghijklmnopqrstuvwxyz0123456789+/").data

/-- Character of the base64 alphabet at index `n`. -/
def b64CharAt (n : Nat) : Char :=
  b64Alphabet.getD n 'A'

/-- Standard base64 encoding of a byte list, as `base64.b64encode`. -/
def b64EncodeBytes : List Nat → List Char
  | [] => []
  | [a] => [b64CharAt (a / 4), b64CharAt (a % 4 * 16), '=', '=']
  | [a, b] => [b64CharAt (a / 4), b64CharAt (a % 4 * 16 + b / 16), b64CharAt (b % 16 * 4), '=']
  | a :: b :: c :: rest =>
    b64CharAt (a / 4) :: b64CharAt (a % 4 * 16 + b / 16) ::
      b64CharAt (b % 16 * 4 + c / 64) :: b64CharAt (c % 64) :: b64EncodeBytes rest

/-- Embeds `base64.b64encode(s.encode())` for ASCII strings. -/
def b64encode (s : String) : String :=
  String.mk (b64EncodeBytes (s.data.map Char.toNat))

/-- What `__main__` of `roundup_summary.py` does with credentials before
fetching. -/
inductive CredOutcome where
  | configError
  | fetchWith (auth : String)
deriving DecidableEq

/-- Embeds the credential step of `__main__` (`roundup_summary.py`,
lines 157-168, with `DEBUG = False`): the script unconditionally builds
`auth = base64.b64encode(auth_bytes)` and proceeds to `get_issues(auth)`;
no branch raises a configuration error. -/
def mainCredentialStep (env : List (String × String)) : CredOutcome :=
  CredOutcome.fetchWith (b64encode (auth_bytes env))

/-! ## Concrete sample data used by witnesses and counterexamples -/

/-- A concrete open issue with a well-formed creation timestamp. -/
def sampleOpenIssue : Issue :=
  Issue.mk "https://example/issue/1" 1 1 "Sample" (User.mk "1" false "alice" "User")
    [] "open" false none [] none 3 "2022-02-15T00:00:00Z" "2022-02-15T00:00:00Z" none "body"

/-- A concrete issue created exactly on the window's start date. -/
def boundaryIssue : Issue :=
  Issue.mk "https://example/issue/2" 2 2 "Boundary" (User.mk "2" false "bob" "User")
    [] "open" false none [] none 0 "2022-02-14T10:00:00Z" "2022-02-14T10:00:00Z" none "body"

/-- The datetime that `boundaryIssue.created_at` parses to. -/
def boundaryDt : PyDatetime :=
  PyDatetime.mk 2022 2 14 10 0 0

/-- A concrete issue whose creation timestamp has month 13,
which `strptime` rejects. -/
def malformedIssue : Issue :=
  Issue.mk "https://example/issue/3" 3 3 "Malformed" (User.mk "3" false "carol" "User")
    [] "open" false none [] none 0 "2022-13-01T00:00:00Z" "2022-13-01T00:00:00Z" none "body"

/-- A concrete issue authored by a `Mannequin`-typed account whose login
is not the placeholder name. -/
def mannequinIssue : Issue :=
  Issue.mk "https://example/issue/4" 4 4 "Imported" (User.mk "4" false "real-name" "Mannequin")
    [] "open" false none [] none 0 "2022-02-15T00:00:00Z" "2022-02-15T00:00:00Z" none "body"

/-- An open issue carrying only a comment count, for the ranking example. -/
def c5issue (c : Nat) : Issue :=
  Issue.mk "" 0 0 "" (User.mk "" false "" "User")
    [] "open" false none [] none c "2022-02-15T00:00:00Z" "" none ""

/-- A mock transport serving pages of sizes 100, 100, 37 and then empty
pages: a paginated source with 237 issues. -/
def t237 : Nat → TResp := fun n =>
  if n = 0 then TResp.ok (List.replicate 100 sampleOpenIssue)
  else if n = 1 then TResp.ok (List.replicate 100 sampleOpenIssue)
  else if n = 2 then TResp.ok (List.replicate 37 sampleOpenIssue)
  else TResp.ok []

/-- A mock transport that fails on requests 0-3, serves a one-issue page
on request 4, and serves empty pages afterwards. -/
def failThenOk : Nat → TResp := fun n =>
  if n < 4 then TResp.err
  else if n = 4 then TResp.ok [sampleOpenIssue]
  else TResp.ok []

/-- A mock transport that always fails. -/
def alwaysFail : Nat → TResp := fun _ => TResp.err

/-! ## Claims about the classifier -/

/-- Claim C3: for every window `start`/`stop` and every issue whose
`created_at` parses to datetime `d`, `opened_between` accepts the issue
iff `start < d.date() < stop`, and an issue created exactly on `start` or
exactly on `stop` is rejected. -/
theorem opened_between_strict_window (issue : Issue) (start stop : PyDate) (d : PyDatetime)
    (h : strptimeZ issue.created_at = some d) :
    (opened_between issue start stop = Except.ok true ↔
      (dateLt start d.toDate = true ∧ dateLt d.toDate stop = true)) ∧
    (d.toDate = start → opened_between issue start stop = Except.ok false) ∧
    (d.toDate = stop → opened_between issue start stop = Except.ok false) := by
  have hirr : ∀ a : PyDate, dateLt a a = false := by
    intro a; simp [dateLt]
  have key : opened_between issue start stop =
      Except.ok (dateLt d.toDate stop && dateLt start d.toDate) := by
    unfold opened_between; rw [h]
  refine ⟨?_, ?_, ?_⟩
  · rw [key]
    constructor
    · intro hok
      have hb : (dateLt d.toDate stop && dateLt start d.toDate) = true :=
        by injection hok
      exact ⟨(Bool.and_eq_true _ _ ▸ hb).2, (Bool.and_eq_true _ _ ▸ hb).1⟩
    · intro hb
      rw [hb.2, hb.1]
      rfl
  · intro hd; rw [key, hd, hirr start, Bool.and_false]
  · intro hd; rw [key, hd, hirr stop, Bool.false_and]

/-- Witness for C3: the boundary issue created on the window's start date
parses successfully and is rejected by `opened_between`. -/
theorem opened_between_strict_window_witness :
    strptimeZ boundaryIssue.created_at = some boundaryDt ∧
    opened_between boundaryIssue (PyDate.mk 2022 2 14) (PyDate.mk 2022 2 20) =
      Except.ok false :=
  ⟨by decide,
   (opened_between_strict_window boundaryIssue (PyDate.mk 2022 2 14)
      (PyDate.mk 2022 2 20) boundaryDt (by decide)).2.1 (by decide)⟩

/-- Claim C8: an issue whose `created_at` does not parse under the fixed
format `%Y-%m-%dT%H:%M:%SZ` makes `opened_between` raise (`ValueError`),
rather than being treated as not-new. -/
theorem opened_between_malformed_raises (issue : Issue) (start stop : PyDate)
    (h : strptimeZ issue.created_at = none) :
    opened_between issue start stop = Except.error () := by
  unfold opened_between; rw [h]

/-- Witness for C8: the month-13 timestamp fails to parse and
`opened_between` raises on it. -/
theorem opened_between_malformed_raises_witness :
    strptimeZ malformedIssue.created_at = none ∧
    opened_between malformedIssue (PyDate.mk 2022 2 14) (PyDate.mk 2022 2 20) =
      Except.error () :=
  ⟨by decide,
   opened_between_malformed_raises malformedIssue (PyDate.mk 2022 2 14)
     (PyDate.mk 2022 2 20) (by decide)⟩

/-- Claim C4: filtering by `is_open` and by its negation partitions the
issue list: the partitions are disjoint, their union is the input set,
each preserves input order (is a sublist), and every element of the open
partition is open. -/
theorem partition_by_state_sound (issues : List Issue) :
    (∀ x, x ∈ open_partition issues → is_open x = true) ∧
    (∀ x, x ∈ open_partition issues → x ∈ closed_partition issues → False) ∧
    (∀ x, x ∈ issues ↔ (x ∈ open_partition issues ∨ x ∈ closed_partition issues)) ∧
    (open_partition issues).Sublist issues ∧
    (closed_partition issues).Sublist issues := by
  refine ⟨?_, ?_, ?_, List.filter_sublist issues, List.filter_sublist issues⟩
  · intro x hx
    exact (List.mem_filter.mp hx).2
  · intro x hx hc
    have h1 := (List.mem_filter.mp hx).2
    have h2 := (List.mem_filter.mp hc).2
    simp only [Bool.not_eq_true'] at h2
    rw [h1] at h2
    cases h2
  · intro x
    constructor
    · intro hx
      by_cases hop : is_open x
      · exact Or.inl (List.mem_filter.mpr ⟨hx, hop⟩)
      · refine Or.inr (List.mem_filter.mpr ⟨hx, ?_⟩)
        simp only [Bool.not_eq_true']
        exact Bool.of_not_eq_true hop
    · intro hx
      rcases hx with hx | hx
      · exact (List.mem_filter.mp hx).1
      · exact (List.mem_filter.mp hx).1

/-- Witness for C4: the sample open issue lands in the open partition of
a singleton list, and the theorem recovers that it is open. -/
theorem partition_by_state_sound_witness :
    sampleOpenIssue ∈ open_partition [sampleOpenIssue] ∧
    is_open sampleOpenIssue = true :=
  ⟨by decide,
   (partition_by_state_sound [sampleOpenIssue]).1 sampleOpenIssue (by decide)⟩

/-! ## Claims about the ranker and renderer -/

/-- Claim C5: on the input with comment counts `[5, 1, 9]` and `n = 2`,
`most_discussed` returns the two lowest-comment issues in ascending
order of comment count, i.e. comment counts `[1, 5]`. -/
theorem most_discussed_example :
    most_discussed [c5issue 5, c5issue 1, c5issue 9] 2 = [c5issue 1, c5issue 5] ∧
    (most_discussed [c5issue 5, c5issue 1, c5issue 9] 2).map Issue.comments = [1, 5] := by
  constructor <;> decide

/-- Claim C6: a row rendered for an issue whose author has account type
`Mannequin` shows the fixed placeholder name and is unchanged under any
value of the author's login; for any other account type the rendered
opener is the real login. -/
theorem mannequin_anonymization (issue : Issue) (l : String) :
    (issue.user.type = "Mannequin" →
      issueOpener issue = "Mannequin" ∧
      renderRow (withLogin issue l) = renderRow issue ∧
      issueTableRows [issue] none = [renderRow issue]) ∧
    (issue.user.type ≠ "Mannequin" → issueOpener issue = issue.user.login) := by
  constructor
  · intro h
    refine ⟨?_, ?_, ?_⟩
    · simp [issueOpener, h]
    · simp [renderRow, issueUrl, issueOpener, withLogin, h]
    · simp [issueTableRows]
  · intro h
    simp [issueOpener, h]

/-- Witness for C6: the Mannequin-authored issue renders with the
placeholder, the user-authored issue renders with its login. -/
theorem mannequin_anonymization_witness :
    mannequinIssue.user.type = "Mannequin" ∧
    issueOpener mannequinIssue = "Mannequin" ∧
    sampleOpenIssue.user.type ≠ "Mannequin" ∧
    issueOpener sampleOpenIssue = sampleOpenIssue.user.login :=
  ⟨by decide,
   ((mannequin_anonymization mannequinIssue "x").1 (by decide)).1,
   by decide,
   (mannequin_anonymization sampleOpenIssue "x").2 (by decide)⟩

/-- Claim C9: every produced report view is bounded by its requested
limit: `most_discussed issues top` has length at most `top`, and
`create_issue_table issues limit` renders exactly
`min limit issues.length` rows (hence at most `limit`). -/
theorem report_views_bounded (issues : List Issue) (top limit : Nat) :
    (most_discussed issues top).length ≤ top ∧
    (issueTableRows issues (some limit)).length = min limit issues.length ∧
    (issueTableRows issues (some limit)).length ≤ limit := by
  refine ⟨?_, ?_, ?_⟩
  · unfold most_discussed
    exact List.length_take_le top _
  · simp [issueTableRows]
  · simp [issueTableRows]

/-- Claim C10: every element returned by `most_discussed` satisfies
`is_open`: the ranker filters out closed issues before sorting and
truncating. -/
theorem most_discussed_all_open (issues : List Issue) (top : Nat) (x : Issue)
    (h : x ∈ most_discussed issues top) : is_open x = true := by
  unfold most_discussed at h
  have h1 := List.take_subset top _ h
  rw [List.mem_insertionSort] at h1
  have h2 := (List.mem_filter.mp h1).2
  simpa [is_open] using h2

/-- Witness for C10: the sample open issue is returned by
`most_discussed` on a singleton list and is indeed open. -/
theorem most_discussed_all_open_witness :
    sampleOpenIssue ∈ most_discussed [sampleOpenIssue] 10 ∧
    is_open sampleOpenIssue = true :=
  ⟨by decide,
   most_discussed_all_open [sampleOpenIssue] 10 sampleOpenIssue (by decide)⟩

/-! ## Claims about the paginator -/

/-- Counterexample to C1 as stated: on a source whose successive pages
have sizes 100, 100, 37 (then empty), `run.py::get_issues` performs 4
requests, not 3 — its loop stops only when an empty page is returned. -/
theorem run_get_issues_four_requests :
    (run_get_issues t237 5 10).requestCount = some 4 ∧
    (run_get_issues t237 5 10).requestCount ≠ some 3 := by
  constructor <;> decide

/-- Claim C1 (amended): for every source whose successive pages have
sizes 100, 100, 37 followed by an empty page,
`roundup_summary.py::get_issues` returns exactly the 237 issues in page
order with exactly 3 requests, stopping on the short page, while
`run.py::get_issues` returns the same 237 issues in page order but
performs a 4th request, stopping only on the empty page. -/
theorem paginated_fetch_237 (t : Nat → TResp) (p0 p1 p2 : List Issue) (fuel : Nat)
    (h0 : t 0 = TResp.ok p0) (h1 : t 1 = TResp.ok p1) (h2 : t 2 = TResp.ok p2)
    (h3 : t 3 = TResp.ok [])
    (l0 : p0.length = 100) (l1 : p1.length = 100) (l2 : p2.length = 37) :
    rs_get_issues t (fuel + 3) = FetchOutcome.success (p0 ++ p1 ++ p2) 3 ∧
    (p0 ++ p1 ++ p2).length = 237 ∧
    run_get_issues t 5 (fuel + 4) = FetchOutcome.success (p0 ++ p1 ++ p2) 4 := by
  have e0 : p0.isEmpty = false := by cases p0 <;> simp_all
  have e1 : p1.isEmpty = false := by cases p1 <;> simp_all
  have e2 : p2.isEmpty = false := by cases p2 <;> simp_all
  refine ⟨?_, ?_, ?_⟩
  · show rs_get_issues_go t 0 [] (fuel + 3) = _
    simp [rs_get_issues_go, h0, h1, h2, l0, l1, l2]
  · simp [l0, l1, l2]
  · show run_get_issues_go t 5 0 [] (fuel + 4) = _
    simp [run_get_issues_go, attemptPage, h0, h1, h2, h3, e0, e1, e2]

/-- Witness for the amended C1: the concrete 237-issue source `t237`. -/
theorem paginated_fetch_237_witness :
    (List.replicate 100 sampleOpenIssue).length = 100 ∧
    (List.replicate 37 sampleOpenIssue).length = 37 ∧
    rs_get_issues t237 3 =
      FetchOutcome.success
        (List.replicate 100 sampleOpenIssue ++ List.replicate 100 sampleOpenIssue ++
          List.replicate 37 sampleOpenIssue) 3 ∧
    run_get_issues t237 5 4 =
      FetchOutcome.success
        (List.replicate 100 sampleOpenIssue ++ List.replicate 100 sampleOpenIssue ++
          List.replicate 37 sampleOpenIssue) 4 :=
  ⟨by simp, by simp,
   (paginated_fetch_237 t237 (List.replicate 100 sampleOpenIssue)
      (List.replicate 100 sampleOpenIssue) (List.replicate 37 sampleOpenIssue) 0
      rfl rfl rfl rfl (by simp) (by simp) (by simp)).1,
   (paginated_fetch_237 t237 (List.replicate 100 sampleOpenIssue)
      (List.replicate 100 sampleOpenIssue) (List.replicate 37 sampleOpenIssue) 0
      rfl rfl rfl rfl (by simp) (by simp) (by simp)).2.2⟩

/-- Claim C2: with `max_retries = 5`, if the transport fails on the first
4 attempts and succeeds on the 5th with a non-empty page (the source's
only page), `run.py::get_issues` succeeds using that page's data; if all
5 attempts for one page fail, it raises (`ValueError`, the fatal
fetch-exhausted error), aborting the run. -/
theorem paginated_fetch_retry (t1 t2 : Nat → TResp) (d : List Issue) (fuel : Nat) :
    ((∀ i, i < 4 → t1 i = TResp.err) → t1 4 = TResp.ok d → d ≠ [] →
      t1 5 = TResp.ok [] →
      run_get_issues t1 5 (fuel + 2) = FetchOutcome.success d 6) ∧
    ((∀ i, i < 5 → t2 i = TResp.err) →
      run_get_issues t2 5 (fuel + 1) = FetchOutcome.exhausted 5) := by
  constructor
  · intro hfail hok hne hempty
    have hd : d.isEmpty = false := by cases d <;> simp_all
    show run_get_issues_go t1 5 0 [] (fuel + 2) = _
    simp [run_get_issues_go, attemptPage, hfail 0 (by omega), hfail 1 (by omega),
      hfail 2 (by omega), hfail 3 (by omega), hok, hempty, hd]
  · intro hfail
    show run_get_issues_go t2 5 0 [] (fuel + 1) = _
    simp [run_get_issues_go, attemptPage, hfail 0 (by omega), hfail 1 (by omega),
      hfail 2 (by omega), hfail 3 (by omega), hfail 4 (by omega)]

/-- Witness for C2: the fail-four-times-then-succeed transport yields the
page's data; the always-failing transport exhausts all 5 retries. -/
theorem paginated_fetch_retry_witness :
    failThenOk 4 = TResp.ok [sampleOpenIssue] ∧
    run_get_issues failThenOk 5 2 = FetchOutcome.success [sampleOpenIssue] 6 ∧
    run_get_issues alwaysFail 5 1 = FetchOutcome.exhausted 5 :=
  ⟨by decide,
   (paginated_fetch_retry failThenOk alwaysFail [sampleOpenIssue] 0).1
     (by decide) (by decide) (by decide) (by decide),
   (paginated_fetch_retry failThenOk alwaysFail [sampleOpenIssue] 0).2 (by decide)⟩

/-! ## Claim about credential handling -/

/-- Counterexample to C7 as stated: with an empty environment (both
`USERNAME` and `TOKEN` absent), `roundup_summary.py::__main__` does not
raise a configuration error — it proceeds to fetch issues with the
basic-auth credential `base64("None:None")`. -/
theorem missing_credentials_not_fatal :
    mainCredentialStep [] = CredOutcome.fetchWith "Tm9uZTpOb25l" ∧
    mainCredentialStep [] ≠ CredOutcome.configError := by
  constructor <;> decide

/-- Claim C7 (amended): when the credential environment variables
`USERNAME` and `TOKEN` are absent, the program raises no configuration
error; `os.environ.get` yields `None` for each, the auth string is
formatted as `"None:None"`, and the run proceeds to fetch issues with
that placeholder credential. -/
theorem missing_credentials_placeholder (env : List (String × String))
    (hu : envGet env "USERNAME" = none) (ht : envGet env "TOKEN" = none) :
    mainCredentialStep env = CredOutcome.fetchWith (b64encode "None:None") ∧
    mainCredentialStep env ≠ CredOutcome.configError := by
  unfold mainCredentialStep auth_bytes
  rw [hu, ht]
  exact ⟨rfl, by simp⟩

/-- Witness for the amended C7: the empty environment. -/
theorem missing_credentials_placeholder_witness :
    envGet [] "USERNAME" = none ∧
    mainCredentialStep [] = CredOutcome.fetchWith (b64encode "None:None") :=
  ⟨rfl, (missing_credentials_placeholder [] rfl rfl).1⟩

end RoundupSummary
